import Mathlib

/-!
Verification development for the zigbee2mqtt orchestration slice:
the `Configure` extension (per-device configuration state machine,
`src/lib/extension/configure.ts`) and the `Frontend` extension
(HTTP/WebSocket gateway). TypeScript classes are embedded as pure
state transformers; the externally awaited configuration routine is
represented by its outcome (`succeeds : Bool`), and each run records
a trace of the observable actions it performed.
-/

namespace Z2M

/-- `device.zh.type`: the zigbee device class. -/
inductive DeviceType
  | router
  | endDevice
  | coordinator
  deriving DecidableEq, Repr

/-- The `event` argument of `Configure.configure`. -/
inductive Event
  | started
  | zigbee_event
  | reporting_disabled
  | mqtt_message
  deriving DecidableEq, Repr

/-- The slice of a `Device` that `Configure` reads or writes.
`hasConfigure` is `device.definition?.configure !== undefined`;
`metaConfigured` is `device.zh.meta?.configured` (the persisted marker,
`none` when absent); `configureKey` is the value
`zhc.getConfigureKey(device.definition)` would produce (a pure function of
the definition, so carried as a field). -/
structure Device where
  ieeeAddr : String
  name : String
  hasConfigure : Bool
  disabled : Bool
  interviewed : Bool
  metaConfigured : Option Nat
  zhType : DeviceType
  configureKey : Nat
  deriving DecidableEq, Repr

/-- The mutable fields of the `Configure` extension:
`configuring` is the JS `Set` of ieeeAddrs with an attempt in flight
(modelled as a duplicate-free list, since entries are only added when
absent), `attempts` the per-ieeeAddr attempt counter map (`none` when the
key is not present yet, like a missing JS object property). -/
structure CState where
  configuring : List String
  attempts : String → Option Nat

/-- Observable actions of one `configure` run, in program order. -/
inductive Action
  | addInFlight
  | invoke
  | saveConfigured
  | emitDevicesChanged
  | removeInFlight
  | clearMarkerSave
  deriving DecidableEq, Repr

/-- Result of one `configure` call: the extension state after the call, the
device after the call (its `configured` marker may have been written), the
trace of actions, and whether the call threw (`throwErr` path). -/
structure ConfigureResult where
  state : CState
  device : Device
  trace : List Action
  threw : Bool

/-- `this.attempts[device.ieeeAddr] >= 3`: in JS a missing entry is
`undefined` and `undefined >= 3` is `false`. -/
def attemptCeiling (st : CState) (a : String) : Bool :=
  match st.attempts a with
  | some n => decide (3 ≤ n)
  | none => false

/-- Lines 92-113 of `Configure.configure`: each early `return` before the
attempt is a `false` here. The first guard (no definition / no configure
routine) is checked before `force` is consulted; the three eligibility
guards inside `if (!force)` follow; last the concurrency/ceiling gate. -/
def gatePass (st : CState) (d : Device) (ev : Event) (force : Bool) : Bool :=
  if !d.hasConfigure then false
  else if !force && (d.disabled || !d.interviewed) then false
  else if !force && d.metaConfigured.isSome then false
  else if !force && (decide (d.zhType = .endDevice) && decide (ev ≠ .zigbee_event)) then false
  else if st.configuring.contains d.ieeeAddr || (attemptCeiling st d.ieeeAddr && !force) then false
  else true

/-- Lines 115-119: add the device to `configuring` and initialise its
attempt counter to 0 when absent. Runs atomically before the awaited
configuration routine. -/
def preInvoke (st : CState) (a : String) : CState :=
  let st1 : CState := ⟨a :: st.configuring, st.attempts⟩
  if (st1.attempts a).isNone then
    ⟨st1.configuring, fun x => if x = a then some 0 else st1.attempts x⟩
  else st1

/-- Lines 124-139 after the awaited routine resolves: on failure the
attempt counter is incremented; the `finally` step always deletes the
device from `configuring`. -/
def postAttempt (st : CState) (a : String) (succeeds : Bool) : CState :=
  if succeeds then ⟨st.configuring.erase a, st.attempts⟩
  else
    ⟨st.configuring.erase a,
      fun x => if x = a then some ((st.attempts a).getD 0 + 1) else st.attempts x⟩

/-- `Configure.configure(device, event, force, throwErr)`, with the
external routine's outcome supplied as `succeeds`. On success the device's
`configured` marker is set to the configure key and persisted; on failure
the call throws iff `throwErr`. -/
def configure (st : CState) (d : Device) (ev : Event) (force throwErr succeeds : Bool) :
    ConfigureResult :=
  if gatePass st d ev force then
    let st1 := preInvoke st d.ieeeAddr
    if succeeds then
      ⟨postAttempt st1 d.ieeeAddr true, { d with metaConfigured := some d.configureKey },
        [.addInFlight, .invoke, .saveConfigured, .emitDevicesChanged, .removeInFlight], false⟩
    else
      ⟨postAttempt st1 d.ieeeAddr false, d, [.addInFlight, .invoke, .removeInFlight], throwErr⟩
  else ⟨st, d, [], false⟩

/-- `Configure.onReconfigure`: clear and persist the `configured` marker
when present, then run `configure(device, "reporting_disabled")`. -/
def onReconfigure (st : CState) (d : Device) (succeeds : Bool) : ConfigureResult :=
  if d.metaConfigured.isSome then
    let r := configure st { d with metaConfigured := none } .reporting_disabled false false succeeds
    { r with trace := .clearMarkerSave :: r.trace }
  else configure st d .reporting_disabled false false succeeds

/-- The `onDeviceJoined` handler registered in `Configure.start`: clear and
persist the `configured` marker when present, then run
`configure(device, "zigbee_event")`. -/
def onDeviceJoined (st : CState) (d : Device) (succeeds : Bool) : ConfigureResult :=
  if d.metaConfigured.isSome then
    let r := configure st { d with metaConfigured := none } .zigbee_event false false succeeds
    { r with trace := .clearMarkerSave :: r.trace }
  else configure st d .zigbee_event false false succeeds

/-- Interleaving model for `configure`. Under node's single-threaded
cooperative scheduling the only suspension point inside `configure` is the
awaited configuration routine (line 123), so a call is two atomic halves:
everything up to and including entering the routine (`Step.start`), and
everything after the routine settles, including the `finally` deletion
(`Step.finish`). `running` lists the ieeeAddrs of calls whose routine is
currently awaited, i.e. the configuration attempts in flight. -/
structure Sys where
  cs : CState
  running : List String

/-- A scheduler step: begin a new `configure` call (it runs atomically up
to the await, or returns at a gate), or settle the awaited routine of a
running call with outcome `succeeds`. -/
inductive Step
  | start (d : Device) (ev : Event) (force : Bool)
  | finish (a : String) (succeeds : Bool)

/-- One scheduler step of the interleaving model; `start` reuses
`gatePass`/`preInvoke` and `finish` reuses `postAttempt`, the exact halves
of `configure`. -/
def sysStep (s : Sys) : Step → Sys
  | .start d ev force =>
    if gatePass s.cs d ev force then ⟨preInvoke s.cs d.ieeeAddr, d.ieeeAddr :: s.running⟩
    else s
  | .finish a succeeds =>
    if a ∈ s.running then ⟨postAttempt s.cs a succeeds, s.running.erase a⟩
    else s

/-- Run a list of scheduler steps. -/
def sysRun (s : Sys) (l : List Step) : Sys := l.foldl sysStep s

/-- The extension's state at process start: nothing in flight, no attempt
counters. -/
def sysInit : Sys := ⟨⟨[], fun _ => none⟩, []⟩

/-- The MQTT slice of `resolveEntity`: an identifier resolves to a device,
to some other entity kind (a group), or to nothing. -/
inductive Entity
  | device (d : Device)
  | group
  deriving DecidableEq, Repr

/-- Modelled from the spec: `utils.parseJSON` applied to the request
payload (utils are not part of this slice's source) yields either a bare
device identifier string — a JSON string, or the raw message when parsing
fails — or an object whose `id` field may be absent. -/
inductive ConfigureRequest
  | str (s : String)
  | obj (id : Option String)
  deriving DecidableEq, Repr

/-- Modelled from the spec: the response object `\x7bid, status: ok|error,
error?\x7d` built by `utils.getResponse` (not part of this slice's
source), echoing the request's id field when present. -/
structure ConfigureResponse where
  id : Option String
  status : String
  error : Option String
  deriving DecidableEq, Repr

/-- Modelled from the spec: `utils.getResponse(message, \x7bid: ID\x7d,
error)` — status is `error` exactly when an error string is present. -/
def getResponse (id : Option String) (error : Option String) : ConfigureResponse :=
  ⟨id, if error.isSome then "error" else "ok", error⟩

/-- `this.topic` of the `Configure` extension. -/
def requestTopic (base : String) : String := base ++ "/bridge/request/device/configure"

/-- Result of `Configure.onMQTTMessage`: the extension state afterwards,
the `(topic, response)` pairs published, and whether the handler let an
exception escape. -/
structure MQTTHandlerResult where
  state : CState
  publishes : List (String × ConfigureResponse)
  threw : Bool

/-- The response topic passed to `this.mqtt.publish`. -/
def responseTopic : String := "bridge/response/device/configure"

/-- The body of `Configure.onMQTTMessage` once the topic has matched:
`id?` is the `ID` extracted from the parsed payload (`undefined` as
`none`). The forced, throwing `configure` call sits in a `try/catch`
whose `catch` turns the failure into the response's error string, so the
handler itself never throws. -/
def handleConfigureRequest (resolve : String → Option Entity) (st : CState)
    (id? : Option String) (succeeds : Bool) (failMsg : String) : MQTTHandlerResult :=
  match id? with
  | none => ⟨st, [(responseTopic, getResponse none (some "Invalid payload"))], false⟩
  | some id =>
    match resolve id with
    | some (.device d) =>
      if d.hasConfigure then
        let r := configure st d .mqtt_message true true succeeds
        let err := if r.threw then some ("Failed to configure (" ++ failMsg ++ ")") else none
        ⟨r.state, [(responseTopic, getResponse (some id) err)], false⟩
      else
        ⟨st, [(responseTopic, getResponse (some id)
          (some ("Device \x27" ++ d.name ++ "\x27 cannot be configured")))], false⟩
    | _ =>
      ⟨st, [(responseTopic, getResponse (some id)
        (some ("Device \x27" ++ id ++ "\x27 does not exist")))], false⟩

/-- `Configure.onMQTTMessage`. `resolve` is `this.zigbee.resolveEntity`;
`succeeds` the outcome of the device's configuration routine when it is
reached, `failMsg` the message of the error it would throw on failure. -/
def onMQTTMessage (base : String) (resolve : String → Option Entity) (st : CState)
    (topic : String) (message : ConfigureRequest) (succeeds : Bool) (failMsg : String) :
    MQTTHandlerResult :=
  if topic = requestTopic base then
    handleConfigureRequest resolve st
      (match message with | .str s => some s | .obj i => i) succeeds failMsg
  else ⟨st, [], false⟩

/-- JSON values (numbers restricted to integers, which is all this slice
exchanges). -/
inductive Json
  | null
  | bool (b : Bool)
  | num (n : Int)
  | str (s : String)
  | arr (xs : List Json)
  | obj (kvs : List (String × Json))

/-- JSON string escaping for the characters the encoder must escape. -/
def Json.escapeChar (c : Char) : String :=
  if c = '\\' then "\\\\"
  else if c = '\"' then "\\\""
  else String.singleton c

/-- JSON string body escaping. -/
def Json.escape (s : String) : String :=
  String.join (s.toList.map Json.escapeChar)

/-- Insert an already-encoded object member into a key-sorted list. -/
def insertByKey (p : String × String) : List (String × String) → List (String × String)
  | [] => [p]
  | q :: qs => if p.1 ≤ q.1 then p :: q :: qs else q :: insertByKey p qs

/-- Sort already-encoded object members by key (insertion sort), as the
stable stringifier does. -/
def sortByKey : List (String × String) → List (String × String)
  | [] => []
  | p :: ps => insertByKey p (sortByKey ps)

mutual

/-- `stringify` from json-stable-stringify: canonical JSON encoding with
object keys sorted. -/
def Json.stringify : Json → String
  | .null => "null"
  | .bool b => if b then "true" else "false"
  | .num n => toString n
  | .str s => "\"" ++ Json.escape s ++ "\""
  | .arr xs => "[" ++ String.intercalate "," (Json.stringifyItems xs) ++ "]"
  | .obj kvs =>
    "\x7b" ++
      String.intercalate ","
        ((sortByKey (Json.stringifyMembers kvs)).map
          (fun p => "\"" ++ Json.escape p.1 ++ "\":" ++ p.2)) ++
      "\x7d"

/-- Encode the items of an array. -/
def Json.stringifyItems : List Json → List String
  | [] => []
  | x :: xs => Json.stringify x :: Json.stringifyItems xs

/-- Encode the values of an object's members, keeping their keys. -/
def Json.stringifyMembers : List (String × Json) → List (String × String)
  | [] => []
  | (k, v) :: kvs => (k, Json.stringify v) :: Json.stringifyMembers kvs

end

mutual

/-- JS string conversion as a template literal performs it
(`String(value)`): objects become `[object Object]`, arrays join their
items with commas (null items becoming empty). -/
def Json.jsToString : Json → String
  | .null => "null"
  | .bool b => if b then "true" else "false"
  | .num n => toString n
  | .str s => s
  | .arr xs => String.intercalate "," (Json.jsArrItems xs)
  | .obj _ => "[object Object]"

/-- Items of a JS array's default string conversion. -/
def Json.jsArrItems : List Json → List String
  | [] => []
  | .null :: xs => "" :: Json.jsArrItems xs
  | x :: xs => Json.jsToString x :: Json.jsArrItems xs

end

/-- First binding of a key in an object's member list (property access). -/
def lookupField : List (String × Json) → String → Option Json
  | [], _ => none
  | (k, v) :: kvs, key => if k = key then some v else lookupField kvs key

/-- JS property access `j.k`: `none` is `undefined` (also for access on a
non-object primitive). -/
def getField (j : Json) (k : String) : Option Json :=
  match j with
  | .obj kvs => lookupField kvs k
  | _ => none

/-- Template interpolation of a possibly-`undefined` value. -/
def jsTemplate : Option Json → String
  | none => "undefined"
  | some j => j.jsToString

/-- Result of the `message` listener installed by
`Frontend.onWebSocketConnection`: an optional `(topic, payload)` pair
handed to `this.mqtt.onMessage`, and whether the listener threw. -/
structure WsMsgResult where
  publish : Option (String × String)
  threw : Bool
  deriving DecidableEq, Repr

/-- The `message` listener of `Frontend.onWebSocketConnection`. `parsed`
is the outcome of `JSON.parse` on the client text (`none` when the text is
not valid JSON, in which case the unguarded parse throws). A Buffer is
always truthy in JS, so the `data` part of the guard is vacuous.
Destructuring `null` throws; `stringify(undefined)` is `undefined`, on
which `Buffer.from` throws. -/
def wsOnMessage (mqttBaseTopic : String) (isBinary : Bool) (parsed : Option Json) :
    WsMsgResult :=
  if isBinary then ⟨none, false⟩
  else
    match parsed with
    | none => ⟨none, true⟩
    | some .null => ⟨none, true⟩
    | some j =>
      match getField j "payload" with
      | none => ⟨none, true⟩
      | some p =>
        ⟨some (mqttBaseTopic ++ "/" ++ jsTemplate (getField j "topic"), p.stringify), false⟩

/-- Result of `Frontend.onUpgrade` for one upgrade request: whether the
`connection` event was emitted (running `onWebSocketConnection` — replay
and bridging) and the close code and reason when the socket was closed
instead. -/
structure UpgradeResult where
  connectionEmitted : Bool
  closed : Option (Nat × String)
  deriving DecidableEq, Repr

/-- `Frontend.onUpgrade`: `authToken` is `settings.get().frontend.auth_token`
(`none` when unset; the empty string is falsy in JS, hence also accepts
everything), `queryToken` the `token` query-string parameter. -/
def onUpgrade (authToken : Option String) (queryToken : Option String) : UpgradeResult :=
  let falsy : Bool := match authToken with | none => true | some t => t = ""
  if falsy then ⟨true, none⟩
  else if queryToken = authToken then ⟨true, none⟩
  else ⟨false, some (4401, "Unauthorized")⟩

/-- Modelled from the spec for comparison: the gate a forced call would
see if, as the spec's words state, the eligibility gate (all four rules,
including the no-configuration-routine rule) were skipped entirely when
`force=true` — only the concurrency gate remains. -/
def gatePassForcedSpec (st : CState) (d : Device) : Bool :=
  if st.configuring.contains d.ieeeAddr then false else true

/-- Modelled from the spec for comparison: a forced `configure` call whose
eligibility gate is skipped entirely, proceeding directly to the
concurrency gate and then performing the attempt exactly as the code
does. -/
def configureForcedSpec (st : CState) (d : Device) (throwErr succeeds : Bool) :
    ConfigureResult :=
  if gatePassForcedSpec st d then
    let st1 := preInvoke st d.ieeeAddr
    if succeeds then
      ⟨postAttempt st1 d.ieeeAddr true, { d with metaConfigured := some d.configureKey },
        [.addInFlight, .invoke, .saveConfigured, .emitDevicesChanged, .removeInFlight], false⟩
    else
      ⟨postAttempt st1 d.ieeeAddr false, d, [.addInFlight, .invoke, .removeInFlight], throwErr⟩
  else ⟨st, d, [], false⟩

/-- A router with a configuration routine, not yet configured; used by the
concrete witnesses. -/
def wDev : Device := ⟨"0xabc", "lamp", true, false, true, none, .router, 7⟩

/-- A device whose definition supplies no configuration routine. -/
def wNoDef : Device := ⟨"0xdef", "plug", false, false, true, none, .router, 0⟩

/-- Extension state at process start. -/
def wEmpty : CState := ⟨[], fun _ => none⟩

/-- Extension state with an attempt for `wDev` in flight. -/
def wBusy : CState := ⟨["0xabc"], fun _ => none⟩

/-- Extension state in which `wDev` has reached the attempt ceiling. -/
def wCeil : CState := ⟨[], fun a => if a = "0xabc" then some 3 else none⟩

section Lemmas

/-- Characterisation of the combined gate of `configure`: the call reaches
the attempt iff the device has a configuration routine, either the call is
forced or all three eligibility conditions hold, no attempt is in flight,
and either the call is forced or the attempt ceiling is not reached. -/
theorem gatePass_true_iff (st : CState) (d : Device) (ev : Event) (force : Bool) :
    gatePass st d ev force = true ↔
      (d.hasConfigure = true ∧
       (force = true ∨ (d.disabled = false ∧ d.interviewed = true ∧
         d.metaConfigured = none ∧ ¬(d.zhType = .endDevice ∧ ev ≠ .zigbee_event))) ∧
       d.ieeeAddr ∉ st.configuring ∧
       (force = true ∨ attemptCeiling st d.ieeeAddr = false)) := by
  have hc : (st.configuring.contains d.ieeeAddr = true) ↔ d.ieeeAddr ∈ st.configuring := by
    simp
  unfold gatePass
  cases force <;> cases d.hasConfigure <;> cases d.disabled <;> cases d.interviewed <;>
    cases hm : d.metaConfigured <;>
    cases hcl : attemptCeiling st d.ieeeAddr <;>
    by_cases hmem : d.ieeeAddr ∈ st.configuring <;>
    simp_all
  all_goals tauto

/-- If the gate passes, no attempt for the device is in flight. -/
theorem gatePass_not_mem {st : CState} {d : Device} {ev : Event} {force : Bool}
    (h : gatePass st d ev force = true) : d.ieeeAddr ∉ st.configuring :=
  ((gatePass_true_iff st d ev force).mp h).2.2.1

/-- If an attempt for the device is in flight, the gate does not pass. -/
theorem gatePass_false_of_mem {st : CState} {d : Device} {ev : Event} {force : Bool}
    (h : d.ieeeAddr ∈ st.configuring) : gatePass st d ev force = false := by
  cases hg : gatePass st d ev force with
  | false => rfl
  | true => exact absurd h (gatePass_not_mem hg)

/-- `preInvoke` pushes the address onto the in-flight set. -/
theorem preInvoke_configuring (st : CState) (a : String) :
    (preInvoke st a).configuring = a :: st.configuring := by
  simp only [preInvoke]
  split <;> rfl

/-- `postAttempt` always erases the address from the in-flight set. -/
theorem postAttempt_configuring (st : CState) (a : String) (b : Bool) :
    (postAttempt st a b).configuring = st.configuring.erase a := by
  unfold postAttempt
  split <;> rfl

/-- Any skipped `configure` call leaves everything unchanged. -/
theorem configure_skip {st : CState} {d : Device} {ev : Event} {force te s : Bool}
    (h : gatePass st d ev force = false) :
    configure st d ev force te s = ⟨st, d, [], false⟩ := by
  unfold configure
  simp [h]

/-- The invariant of the interleaving model: the in-flight attempts are
pairwise for distinct devices, and every running attempt holds its
device's in-flight flag. -/
def SysInv (s : Sys) : Prop :=
  s.running.Nodup ∧ ∀ a ∈ s.running, a ∈ s.cs.configuring

/-- One scheduler step preserves the invariant. -/
theorem sysStep_inv {s : Sys} (stp : Step) (h : SysInv s) : SysInv (sysStep s stp) := by
  obtain ⟨hnd, hsub⟩ := h
  cases stp with
  | start d ev force =>
    cases hg : gatePass s.cs d ev force with
    | false => simpa [sysStep, hg] using ⟨hnd, hsub⟩
    | true =>
      have hnm : d.ieeeAddr ∉ s.cs.configuring := gatePass_not_mem hg
      simp only [sysStep, hg, if_true]
      refine ⟨List.nodup_cons.mpr ⟨fun hm => hnm (hsub _ hm), hnd⟩, ?_⟩
      intro a ha
      rw [preInvoke_configuring]
      rcases List.mem_cons.mp ha with h1 | h2
      · exact h1 ▸ List.mem_cons_self _ _
      · exact List.mem_cons_of_mem _ (hsub _ h2)
  | finish a succeeds =>
    by_cases hc : a ∈ s.running
    case neg => simpa [sysStep, hc] using ⟨hnd, hsub⟩
    case pos =>
      simp only [sysStep, hc, if_true]
      refine ⟨hnd.erase a, ?_⟩
      intro b hb
      rw [postAttempt_configuring]
      obtain ⟨hne, hbr⟩ := (hnd.mem_erase_iff).mp hb
      exact (List.mem_erase_of_ne hne).mpr (hsub _ hbr)

/-- Running any list of scheduler steps preserves the invariant. -/
theorem sysRun_inv {s : Sys} (l : List Step) (h : SysInv s) : SysInv (sysRun s l) := by
  induction l generalizing s with
  | nil => exact h
  | cons x xs ih => exact ih (sysStep_inv x h)

end Lemmas

/-- Claim C1: for every device and every interleaving of triggering events
(including forced requests), at most one configuration attempt for that
device is in flight at any instant; the configure path sets the per-device
in-flight flag before invoking the configuration routine (every non-empty
trace starts with `addInFlight` and only then `invoke`); a call made while
the flag is set returns without invoking the routine and changes nothing;
and the flag is cleared unconditionally in the finally step whether the
attempt succeeds, fails or throws. -/
theorem configure_single_flight :
    (∀ (l : List Step) (a : String), (sysRun sysInit l).running.count a ≤ 1) ∧
    (∀ (st : CState) (d : Device) (ev : Event) (force te s : Bool),
      d.ieeeAddr ∈ st.configuring → configure st d ev force te s = ⟨st, d, [], false⟩) ∧
    (∀ (st : CState) (d : Device) (ev : Event) (force te s : Bool),
      (configure st d ev force te s).trace = [] ∨
      (configure st d ev force te s).trace =
        [.addInFlight, .invoke, .saveConfigured, .emitDevicesChanged, .removeInFlight] ∨
      (configure st d ev force te s).trace = [.addInFlight, .invoke, .removeInFlight]) ∧
    (∀ (st : CState) (d : Device) (ev : Event) (force te s : Bool),
      Action.invoke ∈ (configure st d ev force te s).trace →
        d.ieeeAddr ∉ (configure st d ev force te s).state.configuring) := by
  refine ⟨?_, ?_, ?_, ?_⟩
  · intro l a
    have hinv : SysInv (sysRun sysInit l) :=
      sysRun_inv l ⟨List.nodup_nil, by intro b hb; simp [sysInit] at hb⟩
    exact List.nodup_iff_count_le_one.mp hinv.1 a
  · intro st d ev force te s h
    exact configure_skip (gatePass_false_of_mem h)
  · intro st d ev force te s
    unfold configure
    split
    · split
      · right; left; rfl
      · right; right; rfl
    · left; rfl
  · intro st d ev force te s h
    cases hg : gatePass st d ev force with
    | false => rw [configure_skip hg] at h; simp at h
    | true =>
      have hnm := gatePass_not_mem hg
      have key : ∀ b : Bool,
          d.ieeeAddr ∉ (postAttempt (preInvoke st d.ieeeAddr) d.ieeeAddr b).configuring := by
        intro b
        rw [postAttempt_configuring, preInvoke_configuring, List.erase_cons_head]
        exact hnm
      unfold configure
      rw [hg]
      cases s
      · simpa using key false
      · simpa using key true

/-- Witness for C1 at concrete inputs: a call for a device whose attempt
is in flight is a no-op, and a completed attempt leaves the in-flight flag
clear. -/
theorem configure_single_flight_witness :
    configure wBusy wDev .started false false true = ⟨wBusy, wDev, [], false⟩ ∧
    wDev.ieeeAddr ∉ (configure wEmpty wDev .started false false true).state.configuring :=
  ⟨configure_single_flight.2.1 wBusy wDev .started false false true (by simp [wBusy, wDev]),
   configure_single_flight.2.2.2 wEmpty wDev .started false false true (by decide)⟩

/-- Claim C2: once a device's attempt counter has reached the ceiling (3),
every non-forced call returns without invoking the routine and changes
nothing; a forced call is not blocked by the ceiling (with the routine
present and no attempt in flight, it still invokes the routine) but is
blocked by the in-flight flag. -/
theorem configure_attempt_ceiling :
    (∀ (st : CState) (d : Device) (ev : Event) (te s : Bool),
      attemptCeiling st d.ieeeAddr = true →
      configure st d ev false te s = ⟨st, d, [], false⟩) ∧
    (∀ (st : CState) (d : Device) (ev : Event) (te s : Bool),
      d.hasConfigure = true → d.ieeeAddr ∉ st.configuring →
      attemptCeiling st d.ieeeAddr = true →
      Action.invoke ∈ (configure st d ev true te s).trace) ∧
    (∀ (st : CState) (d : Device) (ev : Event) (te s : Bool),
      d.ieeeAddr ∈ st.configuring →
      configure st d ev true te s = ⟨st, d, [], false⟩) := by
  refine ⟨?_, ?_, ?_⟩
  · intro st d ev te s hceil
    refine configure_skip ?_
    cases hg : gatePass st d ev false with
    | false => rfl
    | true =>
      rcases ((gatePass_true_iff st d ev false).mp hg).2.2.2 with hf | hc
      · exact absurd hf (by simp)
      · rw [hceil] at hc; exact absurd hc (by simp)
  · intro st d ev te s hcfg hnm _
    have hg : gatePass st d ev true = true :=
      (gatePass_true_iff st d ev true).mpr ⟨hcfg, Or.inl rfl, hnm, Or.inl rfl⟩
    unfold configure
    rw [hg]
    cases s <;> simp
  · intro st d ev te s h
    exact configure_skip (gatePass_false_of_mem h)

/-- Witness for C2 at concrete inputs: with the counter at 3 a non-forced
event is a no-op, while a forced request still invokes the routine, and a
forced request during an in-flight attempt is a no-op. -/
theorem configure_attempt_ceiling_witness :
    configure wCeil wDev .started false false true = ⟨wCeil, wDev, [], false⟩ ∧
    Action.invoke ∈ (configure wCeil wDev .mqtt_message true true false).trace ∧
    configure wBusy wDev .mqtt_message true true true = ⟨wBusy, wDev, [], false⟩ :=
  ⟨configure_attempt_ceiling.1 wCeil wDev .started false true (by decide),
   configure_attempt_ceiling.2.1 wCeil wDev .mqtt_message true false rfl (by decide) (by decide),
   configure_attempt_ceiling.2.2 wBusy wDev .mqtt_message true true (by simp [wBusy, wDev])⟩

/-- Counterexample to C3 as stated: a forced call for a device whose
definition supplies no configuration routine is stopped by eligibility
rule 1 (checked before `force` is consulted, lines 92-94) and never
reaches the concurrency gate — its trace is empty and the state is
untouched — whereas a forced call that skipped the entire eligibility
gate, as the claim states, would pass the open concurrency gate and
perform the attempt. -/
theorem configure_force_rule1_cex :
    configure wEmpty wNoDef .mqtt_message true true true = ⟨wEmpty, wNoDef, [], false⟩ ∧
    (configureForcedSpec wEmpty wNoDef true true).trace =
      [.addInFlight, .invoke, .saveConfigured, .emitDevicesChanged, .removeInFlight] :=
  ⟨rfl, rfl⟩

/-- Claim C3 amended: when invoked with `force=true`, eligibility rules
2-4 (disabled or uninterviewed device, existing configured marker,
end-device filter) are skipped and the call proceeds directly to the
concurrency gate, but rule 1 (no definition or no configuration routine)
is enforced unconditionally, before the force flag is consulted. -/
theorem configure_force_skips_rules234 :
    (∀ (st : CState) (d : Device) (ev : Event) (te s : Bool), d.hasConfigure = true →
      configure st d ev true te s = configureForcedSpec st d te s) ∧
    (∀ (st : CState) (d : Device) (ev : Event) (force te s : Bool), d.hasConfigure = false →
      configure st d ev force te s = ⟨st, d, [], false⟩) := by
  constructor
  · intro st d ev te s hcfg
    have hg : gatePass st d ev true = gatePassForcedSpec st d := by
      unfold gatePass gatePassForcedSpec
      simp [hcfg]
    unfold configure configureForcedSpec
    rw [hg]
  · intro st d ev force te s hcfg
    refine configure_skip ?_
    unfold gatePass
    simp [hcfg]

/-- Witness for the amended C3 at concrete inputs: a forced call on an
eligible-in-no-other-way device (uninterviewed, already marked configured,
sleepy end device) coincides with the spec's eligibility-skipping forced
call, and a call on a device without a routine is a no-op. -/
theorem configure_force_skips_rules234_witness :
    configure wEmpty ⟨"0xee", "sensor", true, true, false, some 5, .endDevice, 5⟩
        .started true false true =
      configureForcedSpec wEmpty ⟨"0xee", "sensor", true, true, false, some 5, .endDevice, 5⟩
        false true ∧
    configure wEmpty wNoDef .started false false true = ⟨wEmpty, wNoDef, [], false⟩ :=
  ⟨configure_force_skips_rules234.1 wEmpty _ .started false true rfl,
   configure_force_skips_rules234.2 wEmpty wNoDef .started false false true rfl⟩

/-- Claim C4: for a device whose definition is absent or supplies no
configuration routine, no invocation of the configuration path — for any
event, forced or not, directly or through the reconfigure, device-joined
or request handlers — ever sets its in-flight flag or touches its attempt
counter: the extension state is returned unchanged. -/
theorem configure_no_routine_noop :
    (∀ (st : CState) (d : Device) (ev : Event) (force te s : Bool), d.hasConfigure = false →
      configure st d ev force te s = ⟨st, d, [], false⟩) ∧
    (∀ (st : CState) (d : Device) (s : Bool), d.hasConfigure = false →
      (onReconfigure st d s).state = st ∧ (onDeviceJoined st d s).state = st) ∧
    (∀ (resolve : String → Option Entity) (st : CState) (s : Bool) (fm : String)
       (id : String) (d : Device), resolve id = some (.device d) → d.hasConfigure = false →
      (handleConfigureRequest resolve st (some id) s fm).state = st) := by
  have hskip : ∀ (st : CState) (d : Device) (ev : Event) (force te s : Bool),
      d.hasConfigure = false → configure st d ev force te s = ⟨st, d, [], false⟩ := by
    intro st d ev force te s hcfg
    refine configure_skip ?_
    unfold gatePass
    simp [hcfg]
  refine ⟨hskip, ?_, ?_⟩
  · intro st d s hcfg
    constructor
    · unfold onReconfigure
      split
      · rw [hskip _ _ _ _ _ _ (by simpa using hcfg)]
      · rw [hskip _ _ _ _ _ _ hcfg]
    · unfold onDeviceJoined
      split
      · rw [hskip _ _ _ _ _ _ (by simpa using hcfg)]
      · rw [hskip _ _ _ _ _ _ hcfg]
  · intro resolve st s fm id d hres hcfg
    simp [handleConfigureRequest, hres, hcfg]

/-- Witness for C4 at concrete inputs: every path leaves the state of a
routine-less device untouched. -/
theorem configure_no_routine_noop_witness :
    configure wEmpty wNoDef .mqtt_message true true true = ⟨wEmpty, wNoDef, [], false⟩ ∧
    (onReconfigure wEmpty wNoDef true).state = wEmpty ∧
    (handleConfigureRequest (fun _ => some (.device wNoDef)) wEmpty (some "0xdef")
        true "boom").state = wEmpty :=
  ⟨configure_no_routine_noop.1 wEmpty wNoDef .mqtt_message true true true rfl,
   (configure_no_routine_noop.2.1 wEmpty wNoDef true rfl).1,
   configure_no_routine_noop.2.2 (fun _ => some (.device wNoDef)) wEmpty true "boom"
     "0xdef" wNoDef rfl rfl⟩

/-- Claim C5: once a device carries a `configured` marker, every
non-forced invocation of the configuration path returns without invoking
the routine and changes nothing; the reconfigure-requested and
device-joined handlers clear and persist the marker first and only then
re-invoke the configuration path on the cleared device. -/
theorem configured_marker_idempotent :
    (∀ (st : CState) (d : Device) (ev : Event) (te s : Bool) (k : Nat),
      d.metaConfigured = some k →
      configure st d ev false te s = ⟨st, d, [], false⟩) ∧
    (∀ (st : CState) (d : Device) (s : Bool), d.metaConfigured.isSome = true →
      onReconfigure st d s =
        { configure st { d with metaConfigured := none } .reporting_disabled false false s with
            trace := .clearMarkerSave ::
              (configure st { d with metaConfigured := none }
                .reporting_disabled false false s).trace }) ∧
    (∀ (st : CState) (d : Device) (s : Bool), d.metaConfigured.isSome = true →
      onDeviceJoined st d s =
        { configure st { d with metaConfigured := none } .zigbee_event false false s with
            trace := .clearMarkerSave ::
              (configure st { d with metaConfigured := none }
                .zigbee_event false false s).trace }) := by
  refine ⟨?_, ?_, ?_⟩
  · intro st d ev te s k hm
    refine configure_skip ?_
    cases hg : gatePass st d ev false with
    | false => rfl
    | true =>
      rcases ((gatePass_true_iff st d ev false).mp hg).2.1 with hf | he
      · exact absurd hf (by simp)
      · rw [hm] at he; exact absurd he.2.2.1 (by simp)
  · intro st d s hm
    unfold onReconfigure
    rw [if_pos hm]
  · intro st d s hm
    unfold onDeviceJoined
    rw [if_pos hm]

/-- Witness for C5 at concrete inputs: a marked device skips non-forced
configuration, and the reconfigure handler hands `configure` the device
with its marker cleared, after persisting the clearing. -/
theorem configured_marker_idempotent_witness :
    configure wEmpty { wDev with metaConfigured := some 7 } .zigbee_event false false true =
      ⟨wEmpty, { wDev with metaConfigured := some 7 }, [], false⟩ ∧
    onReconfigure wEmpty { wDev with metaConfigured := some 7 } true =
      { configure wEmpty wDev .reporting_disabled false false true with
          trace := .clearMarkerSave ::
            (configure wEmpty wDev .reporting_disabled false false true).trace } :=
  ⟨configured_marker_idempotent.1 wEmpty { wDev with metaConfigured := some 7 }
      .zigbee_event false true 7 rfl,
   configured_marker_idempotent.2.1 wEmpty { wDev with metaConfigured := some 7 } true rfl⟩

/-- Claim C9: every configuration failure that reaches the attempt (the
combined gate passes) increments the device's attempt counter, for forced
and non-forced calls alike — they share the same per-device counter — and
once that counter has reached 3, every non-forced call is skipped by the
ceiling check regardless of how the failures were mixed. -/
theorem failure_increments_attempts :
    (∀ (st : CState) (d : Device) (ev : Event) (force te : Bool),
      gatePass st d ev force = true →
      (configure st d ev force te false).state.attempts d.ieeeAddr =
        some ((st.attempts d.ieeeAddr).getD 0 + 1)) ∧
    (∀ (st : CState) (d : Device) (ev : Event) (te s : Bool),
      attemptCeiling st d.ieeeAddr = true →
      configure st d ev false te s = ⟨st, d, [], false⟩) := by
  constructor
  · intro st d ev force te hg
    cases hA : st.attempts d.ieeeAddr <;>
      simp [configure, hg, preInvoke, postAttempt, hA]
  · intro st d ev te s hceil
    refine configure_skip ?_
    cases hg : gatePass st d ev false with
    | false => rfl
    | true =>
      rcases ((gatePass_true_iff st d ev false).mp hg).2.2.2 with hf | hc
      · exact absurd hf (by simp)
      · rw [hceil] at hc; exact absurd hc (by simp)

/-- Witness for C9 at concrete inputs: a forced failed request/response
attempt moves the counter from absent to 1, and with the counter at 3 a
non-forced zigbee event is a no-op. -/
theorem failure_increments_attempts_witness :
    (configure wEmpty wDev .mqtt_message true true false).state.attempts "0xabc" = some 1 ∧
    configure wCeil wDev .zigbee_event false false true = ⟨wCeil, wDev, [], false⟩ :=
  ⟨failure_increments_attempts.1 wEmpty wDev .mqtt_message true true (by decide),
   failure_increments_attempts.2 wCeil wDev .zigbee_event false true (by decide)⟩

/-- Claim C6: every message received on the configure request topic yields
exactly one response published on the response topic and the handler never
lets an error escape; in particular, for request `\x7b"id": "bad_id"\x7d`
with no device resolving to that identifier, the response is exactly
`\x7b"id": "bad_id", "status": "error", "error": "Device \x27bad_id\x27
does not exist"\x7d`. -/
theorem onMQTTMessage_response :
    (∀ (base : String) (resolve : String → Option Entity) (st : CState)
       (m : ConfigureRequest) (s : Bool) (fm : String),
      (onMQTTMessage base resolve st (requestTopic base) m s fm).publishes.length = 1 ∧
      (onMQTTMessage base resolve st (requestTopic base) m s fm).threw = false) ∧
    (∀ (base : String) (resolve : String → Option Entity) (st : CState)
       (s : Bool) (fm : String),
      resolve "bad_id" = none →
      (onMQTTMessage base resolve st (requestTopic base)
          (.obj (some "bad_id")) s fm).publishes =
        [(responseTopic,
          ⟨some "bad_id", "error", some "Device \x27bad_id\x27 does not exist"⟩)]) := by
  have hone : ∀ (resolve : String → Option Entity) (st : CState) (id? : Option String)
      (s : Bool) (fm : String),
      (handleConfigureRequest resolve st id? s fm).publishes.length = 1 ∧
      (handleConfigureRequest resolve st id? s fm).threw = false := by
    intro resolve st id? s fm
    cases id? with
    | none => simp [handleConfigureRequest]
    | some id =>
      cases hres : resolve id with
      | none => simp [handleConfigureRequest, hres]
      | some e =>
        cases e with
        | group => simp [handleConfigureRequest, hres]
        | device d =>
          cases hcfg : d.hasConfigure <;> simp [handleConfigureRequest, hres, hcfg]
  constructor
  · intro base resolve st m s fm
    have := hone resolve st (match m with | .str s0 => some s0 | .obj i => i) s fm
    simpa [onMQTTMessage] using this
  · intro base resolve st s fm hres
    simp [onMQTTMessage, handleConfigureRequest, hres, getResponse]

/-- Witness for C6 at concrete inputs: an unresolvable id yields the exact
error response, once. -/
theorem onMQTTMessage_response_witness :
    (onMQTTMessage "zigbee2mqtt" (fun _ => none) wEmpty
        (requestTopic "zigbee2mqtt") (.obj (some "bad_id")) true "x").publishes =
      [(responseTopic,
        ⟨some "bad_id", "error", some "Device \x27bad_id\x27 does not exist"⟩)] :=
  onMQTTMessage_response.2 "zigbee2mqtt" (fun _ => none) wEmpty true "x" rfl

/-- Claim C7: when a non-empty `auth_token` is configured and the query
token does not match it exactly, the upgrade is closed with code 4401 and
the connection handler is never emitted for that socket; when no token is
configured, every upgrade is accepted. -/
theorem onUpgrade_auth :
    (∀ (t : String) (q : Option String), t ≠ "" → q ≠ some t →
      onUpgrade (some t) q = ⟨false, some (4401, "Unauthorized")⟩) ∧
    (∀ (q : Option String), onUpgrade none q = ⟨true, none⟩) := by
  constructor
  · intro t q ht hq
    simp [onUpgrade, ht, hq]
  · intro q
    simp [onUpgrade]

/-- Witness for C7 at concrete inputs: a wrong token against `secret` is
closed with 4401, a missing token against no configured token is
accepted. -/
theorem onUpgrade_auth_witness :
    onUpgrade (some "secret") (some "wrong") = ⟨false, some (4401, "Unauthorized")⟩ ∧
    onUpgrade none none = ⟨true, none⟩ :=
  ⟨onUpgrade_auth.1 "secret" (some "wrong") (by decide) (by decide),
   onUpgrade_auth.2 none⟩

/-- Claim C8: a non-binary client message parsing to an object with a
string `topic` and a `payload` is re-published into the bus transport on
`mqttBaseTopic/topic` carrying the canonical stable JSON encoding of the
payload; in particular `\x7btopic: "t", payload: \x7b"a":1\x7d\x7d` yields
a publish on the namespaced topic `t` with payload the canonical encoding
of `\x7b"a":1\x7d`. -/
theorem ws_bridge_roundtrip :
    (∀ (base t : String) (p : Json) (kvs : List (String × Json)),
      lookupField kvs "topic" = some (.str t) →
      lookupField kvs "payload" = some p →
      wsOnMessage base false (some (.obj kvs)) =
        ⟨some (base ++ "/" ++ t, p.stringify), false⟩) ∧
    wsOnMessage "zigbee2mqtt" false
        (some (.obj [("topic", .str "t"), ("payload", .obj [("a", .num 1)])])) =
      ⟨some ("zigbee2mqtt/t", "\x7b\"a\":1\x7d"), false⟩ := by
  constructor
  · intro base t p kvs h1 h2
    simp [wsOnMessage, getField, h1, h2, jsTemplate, Json.jsToString]
  · rfl

/-- Witness for C8 at concrete inputs, through the universal part. -/
theorem ws_bridge_roundtrip_witness :
    wsOnMessage "zigbee2mqtt" false
        (some (.obj [("topic", .str "t"), ("payload", .obj [("a", .num 1)])])) =
      ⟨some ("zigbee2mqtt/t",
        Json.stringify (.obj [("a", .num 1)])), false⟩ :=
  ws_bridge_roundtrip.1 "zigbee2mqtt" "t" (.obj [("a", .num 1)])
    [("topic", .str "t"), ("payload", .obj [("a", .num 1)])] rfl rfl

/-- Claim C10: a non-binary client message whose text `JSON.parse` rejects
(here: the parse outcome is `none`, e.g. for the text consisting of a
single opening brace) makes the bridge listener throw — the parse is
unguarded — and no bus publish occurs for that message. -/
theorem ws_bridge_invalid_json_throws :
    ∀ (base : String), wsOnMessage base false none = ⟨none, true⟩ := by
  intro base
  rfl

end Z2M
